import Mathlib

/-!
Verification development for the SFPLiberate BLE proxy bridge.

Shallow embedding of:
- `backend/app/services/ble_manager.py` (class `BLEManager`, the Device Adapter),
- `ble-proxy-service/schemas.py` (the pydantic message schemas),
- `backend/app/api/v1/ble_proxy.py` (class `BLEProxyHandler`, the Session Handler).

Modelling conventions:
- The bleak library is assumed importable (`BLEAK_AVAILABLE = True`); a `BLEManager`
  instance only exists in that case, since `__init__` raises otherwise.
- A live `BleakClient` is modelled as `Option Device`: `some d` means a client object
  exists and `client.is_connected` is true.  The two ways a bleak client becomes
  disconnected — a local `disconnect()` call and the `disconnected_callback` — are the
  modelled transitions, matching the bleak contract that the callback fires on
  disconnection.
- Outcomes of the underlying bleak calls (`BleakScanner.discover`,
  `BleakClient.connect`, `write_gatt_char`, `start_notify`, `stop_notify`,
  `base64.b64decode`) are supplied by oracle functions; `Option String` outcomes read
  `none` = the call succeeded, `some m` = the call raised with message `m`.
- Python truthiness on optional string fields (`if not device_address:` etc.) is
  modelled by `strTruthy`, which is false for both `None` and the empty string.
-/

namespace SFPLiberate

/-- Python truthiness of an optional string: `None` and `""` are falsy. -/
def strTruthy : Option String → Bool
  | none => false
  | some s => !s.isEmpty

/-- A raw device as returned by `BleakScanner.discover`: `name` and `rssi` may be
absent (`device.name or "Unknown"`, `device.rssi if hasattr ... else -100`). -/
structure ScannedDevice where
  name : Option String
  address : String
  rssi : Option Int
deriving DecidableEq, Repr

/-- An entry of the list returned by `BLEManager.discover_devices`. -/
structure DeviceSummary where
  name : String
  address : String
  rssi : Int
deriving DecidableEq, Repr

/-- `discover_devices` maps each scanned device to a summary dict. -/
def summarize (d : ScannedDevice) : DeviceSummary :=
  { name := d.name.getD "Unknown", address := d.address, rssi := d.rssi.getD (-100) }

/-- The peripheral a live `BleakClient` is connected to: its name, address, advertised
service UUIDs, and the characteristics it exposes (`start_notify` succeeds only for a
characteristic the device actually has). -/
structure Device where
  name : String
  address : String
  services : List String
  chars : List String
deriving DecidableEq, Repr

/-- The mutable state of a `BLEManager` instance: `client` (`some` iff a live connected
client exists), `device_address`, and `_subscribed_characteristics` (a Python `set`,
modelled as a duplicate-free list). -/
structure BLEState where
  client : Option Device
  device_address : Option String
  subscribed_characteristics : List String
deriving DecidableEq, Repr

/-- State of a freshly constructed `BLEManager` (`__init__`). -/
def BLEManager.init : BLEState :=
  { client := none, device_address := none, subscribed_characteristics := [] }

/-- `BLEManager.is_connected`: `self.client is not None and self.client.is_connected`.
In the model a stored client is always connected, so this is presence of `client`. -/
def BLEManager.is_connected (s : BLEState) : Bool :=
  s.client.isSome

/-- Exceptions raised by `BLEManager` operations. -/
inductive BLEError where
  | valueError (m : String)
  | runtimeError (m : String)
  | bleakError (m : String)
deriving DecidableEq, Repr

/-- `str(e)` of an exception, as interpolated into error events. -/
def BLEError.msg : BLEError → String
  | .valueError m => m
  | .runtimeError m => m
  | .bleakError m => m

/-- Outcome of a `BleakScanner.discover(timeout, service_uuids?, adapter?)` call. -/
inductive ScanResult where
  | ok (devices : List ScannedDevice)
  | err (m : String)

/-- Outcome of constructing a `BleakClient` for an address and awaiting
`client.connect()` plus service enumeration: on success the device identity. -/
inductive LinkResult where
  | ok (name : String) (services : List String) (chars : List String)
  | err (m : String)

/-- The dict returned by a successful `BLEManager.connect`. -/
structure ConnectInfo where
  name : String
  address : String
  services : List String
deriving DecidableEq, Repr

/-- `BLEManager.discover_devices`: one bounded scan through the oracle, each result
mapped to a summary; a scanner exception propagates.  The `service_uuids` filter is
passed only when `service_uuid` is truthy. -/
def BLEManager.discover_devices (scan : Int → Option String → Option String → ScanResult)
    (service_uuid : Option String) (timeout : Int) (adapter : Option String) :
    Except BLEError (List DeviceSummary) :=
  let filt := if strTruthy service_uuid then service_uuid else none
  match scan timeout filt adapter with
  | .ok ds => .ok (ds.map summarize)
  | .err m => .error (.bleakError m)

/-- The address-resolution phase of `BLEManager.connect` when `device_address` is
falsy: require a truthy `service_uuid`, run a 10-second discovery, take the first
match, or fail. -/
def BLEManager.resolveAddress (scan : Int → Option String → Option String → ScanResult)
    (service_uuid adapter : Option String) : Except BLEError String :=
  match service_uuid with
  | none => .error (.valueError "Either device_address or service_uuid is required to connect")
  | some u =>
    if u.isEmpty then
      .error (.valueError "Either device_address or service_uuid is required to connect")
    else
      match BLEManager.discover_devices scan (some u) 10 adapter with
      | .error e => .error e
      | .ok [] => .error (.valueError ("No devices found with service " ++ u))
      | .ok (d :: _) => .ok d.address

/-- `BLEManager.disconnect`: when connected, stop every tracked notification
(best-effort, exceptions logged), clear the subscription set, tear down the link
(best-effort), then null out `client` and `device_address`; the two nulling
assignments run unconditionally. -/
def BLEManager.disconnect (s : BLEState) : BLEState :=
  if BLEManager.is_connected s then
    { client := none, device_address := none, subscribed_characteristics := [] }
  else
    { s with client := none, device_address := none }

/-- The target-address selection of `BLEManager.connect`: a truthy `device_address`
is used directly, a falsy one falls through to discovery via `resolveAddress`. -/
def BLEManager.targetAddress (scan : Int → Option String → Option String → ScanResult)
    (service_uuid device_address adapter : Option String) : Except BLEError String :=
  match device_address with
  | some a =>
    if a.isEmpty then BLEManager.resolveAddress scan service_uuid adapter else .ok a
  | none => BLEManager.resolveAddress scan service_uuid adapter

/-- The `try` block of `BLEManager.connect`: build a client for the address, await
`client.connect()`, record the address, and enumerate services; on any failure the
`except` clause nulls `client` and `device_address` and re-raises. -/
def BLEManager.establishLink (link : String → Option String → LinkResult) (s1 : BLEState)
    (addr : String) (adapter : Option String) : BLEState × Except BLEError ConnectInfo :=
  match link addr adapter with
  | .err m =>
    ({ client := none, device_address := none,
       subscribed_characteristics := s1.subscribed_characteristics },
     .error (.bleakError m))
  | .ok nm svcs chs =>
    ({ client := some { name := nm, address := addr, services := svcs, chars := chs },
       device_address := some addr,
       subscribed_characteristics := s1.subscribed_characteristics },
     .ok { name := nm, address := addr, services := svcs })

/-- `BLEManager.connect`: disconnect first if connected; resolve the target address
(directly when `device_address` is truthy, otherwise via a 10s discovery on
`service_uuid`); then establish the link. -/
def BLEManager.connect (scan : Int → Option String → Option String → ScanResult)
    (link : String → Option String → LinkResult) (s : BLEState)
    (service_uuid device_address adapter : Option String) :
    BLEState × Except BLEError ConnectInfo :=
  let s1 := if BLEManager.is_connected s then BLEManager.disconnect s else s
  match BLEManager.targetAddress scan service_uuid device_address adapter with
  | .error e => (s1, .error e)
  | .ok addr => BLEManager.establishLink link s1 addr adapter

/-- `BLEManager.write`: `RuntimeError` when not connected, else the outcome of
`write_gatt_char`; never touches the subscription set. -/
def BLEManager.write (wr : String → List Nat → Bool → Option String) (s : BLEState)
    (characteristic_uuid : String) (data : List Nat) (with_response : Bool) :
    BLEState × Except BLEError Unit :=
  if !BLEManager.is_connected s then
    (s, .error (.runtimeError "Not connected to any device"))
  else
    match wr characteristic_uuid data with_response with
    | none => (s, .ok ())
    | some m => (s, .error (.bleakError m))

/-- `BLEManager.subscribe`: `RuntimeError` when not connected; otherwise
`start_notify` runs first and the characteristic is added to the tracked set only
after it succeeds; a `start_notify` failure propagates with the set unchanged. -/
def BLEManager.subscribe (notify : String → Option String) (s : BLEState)
    (characteristic_uuid : String) : BLEState × Except BLEError Unit :=
  if !BLEManager.is_connected s then
    (s, .error (.runtimeError "Not connected to any device"))
  else
    match notify characteristic_uuid with
    | none =>
      ({ s with subscribed_characteristics :=
          s.subscribed_characteristics.insert characteristic_uuid }, .ok ())
    | some m => (s, .error (.bleakError m))

/-- `BLEManager.unsubscribe`: `RuntimeError` when not connected; a characteristic not
in the tracked set is a warning-and-return no-op; otherwise `stop_notify` runs first
and the characteristic is discarded only after it succeeds. -/
def BLEManager.unsubscribe (stop : String → Option String) (s : BLEState)
    (characteristic_uuid : String) : BLEState × Except BLEError Unit :=
  if !BLEManager.is_connected s then
    (s, .error (.runtimeError "Not connected to any device"))
  else if !(s.subscribed_characteristics.contains characteristic_uuid) then
    (s, .ok ())
  else
    match stop characteristic_uuid with
    | none =>
      ({ s with subscribed_characteristics :=
          s.subscribed_characteristics.erase characteristic_uuid }, .ok ())
    | some m => (s, .error (.bleakError m))

/-- `BLEManager._on_disconnect` (the bleak `disconnected_callback`): unconditionally
clear the subscription set, then null `client` and `device_address`. -/
def BLEManager.on_disconnect (_s : BLEState) : BLEState :=
  { client := none, device_address := none, subscribed_characteristics := [] }

/-- The successive adapter states observable while `BLEManager.disconnect` runs, one
entry per state-mutating line (the best-effort `stop_notify` and `client.disconnect()`
calls touch no adapter field). -/
def BLEManager.disconnectTrace (s : BLEState) : List BLEState :=
  if BLEManager.is_connected s then
    [s,
     { s with subscribed_characteristics := [] },
     { s with subscribed_characteristics := [], client := none },
     { client := none, device_address := none, subscribed_characteristics := [] }]
  else
    [s,
     { s with client := none },
     { s with client := none, device_address := none }]

/-- The successive adapter states observable while `BLEManager._on_disconnect` runs. -/
def BLEManager.on_disconnectTrace (s : BLEState) : List BLEState :=
  [s,
   { s with subscribed_characteristics := [] },
   { s with subscribed_characteristics := [], client := none },
   { client := none, device_address := none, subscribed_characteristics := [] }]

/-- The adapter state invariant: with no client, the subscription set is empty and no
address is retained; with a client, every tracked characteristic is one the connected
device exposes and the stored address is the device address. -/
def BLEState.inv (s : BLEState) : Bool :=
  match s.client with
  | none => s.subscribed_characteristics.isEmpty && s.device_address.isNone
  | some d =>
    s.subscribed_characteristics.all (fun c => d.chars.contains c) &&
    (s.device_address == some d.address)

/-- A client command issued to the Device Adapter, bundled with the outcomes the
underlying bleak calls would have during its processing; `deviceDrop` is the
device-initiated disconnect delivered through the bleak callback. -/
inductive Cmd where
  | connect (scan : Int → Option String → Option String → ScanResult)
      (link : String → Option String → LinkResult)
      (service_uuid device_address adapter : Option String)
  | disconnect
  | write (wr : String → List Nat → Bool → Option String)
      (char : String) (data : List Nat) (withResponse : Bool)
  | subscribe (notify : String → Option String) (char : String)
  | unsubscribe (stop : String → Option String) (char : String)
  | deviceDrop

/-- The adapter-state transition a single command performs. -/
def step (s : BLEState) : Cmd → BLEState
  | .connect scan link su da ad => (BLEManager.connect scan link s su da ad).1
  | .disconnect => BLEManager.disconnect s
  | .write wr c d r => (BLEManager.write wr s c d r).1
  | .subscribe notify c => (BLEManager.subscribe notify s c).1
  | .unsubscribe stop c => (BLEManager.unsubscribe stop s c).1
  | .deviceDrop => BLEManager.on_disconnect s

/-- Environment faithfulness of one command: the bleak call start_notify can only succeed
for a characteristic the connected device exposes (it raises for an unknown one).  All
other oracle outcomes are unconstrained. -/
def cmdOk (s : BLEState) : Cmd → Bool
  | .subscribe notify c =>
    match s.client, notify c with
    | some d, none => d.chars.contains c
    | _, _ => true
  | _ => true

/-- Environment faithfulness along a whole command sequence. -/
def runOk : BLEState → List Cmd → Bool
  | _, [] => true
  | s, c :: cs => cmdOk s c && runOk (step s c) cs

/-- Processing a command sequence from a state. -/
def run (s : BLEState) (cs : List Cmd) : BLEState :=
  cs.foldl step s

/-!  Message schemas (`ble-proxy-service/schemas.py`), as pydantic validation over the
fields a decoded JSON object may carry. -/

/-- The fields of a parsed inbound JSON object that any client message may read;
`none` = the key is absent. -/
structure MsgFields where
  service_uuid : Option String := none
  device_address : Option String := none
  adapter : Option String := none
  characteristic_uuid : Option String := none
  data : Option String := none
  with_response : Option Bool := none
  timeout : Option Int := none
deriving DecidableEq, Repr

/-- A pydantic `ValidationError` cause. -/
inductive ValidationErr where
  | missingRequired (field : String)
  | outOfRange (field : String)
deriving DecidableEq, Repr

/-- Stand-in for the pydantic rendering of a `ValidationError`, as interpolated into the
error event text. -/
def renderValidationErr : ValidationErr → String
  | .missingRequired f => "Field required: " ++ f
  | .outOfRange f => "Value out of range: " ++ f

/-- `BLEConnectMessage`: `service_uuid` is a required field (`Field(...)`);
`device_address` and `adapter` default to `None`. -/
structure BLEConnectMessage where
  service_uuid : String
  device_address : Option String
  adapter : Option String
deriving DecidableEq, Repr

/-- Validation performed by `BLEConnectMessage(**message)`. -/
def BLEConnectMessage.ofFields (f : MsgFields) : Except ValidationErr BLEConnectMessage :=
  match f.service_uuid with
  | none => .error (.missingRequired "service_uuid")
  | some u => .ok { service_uuid := u, device_address := f.device_address, adapter := f.adapter }

/-- `BLEWriteMessage`: `characteristic_uuid` and `data` required, `with_response`
defaults to false. -/
structure BLEWriteMessage where
  characteristic_uuid : String
  data : String
  with_response : Bool
deriving DecidableEq, Repr

/-- Validation performed by `BLEWriteMessage(**message)`. -/
def BLEWriteMessage.ofFields (f : MsgFields) : Except ValidationErr BLEWriteMessage :=
  match f.characteristic_uuid with
  | none => .error (.missingRequired "characteristic_uuid")
  | some c =>
    match f.data with
    | none => .error (.missingRequired "data")
    | some d => .ok { characteristic_uuid := c, data := d, with_response := f.with_response.getD false }

/-- `BLESubscribeMessage`: `characteristic_uuid` required. -/
structure BLESubscribeMessage where
  characteristic_uuid : String
deriving DecidableEq, Repr

/-- Validation performed by `BLESubscribeMessage(**message)`. -/
def BLESubscribeMessage.ofFields (f : MsgFields) : Except ValidationErr BLESubscribeMessage :=
  match f.characteristic_uuid with
  | none => .error (.missingRequired "characteristic_uuid")
  | some c => .ok { characteristic_uuid := c }

/-- `BLEUnsubscribeMessage`: `characteristic_uuid` required. -/
structure BLEUnsubscribeMessage where
  characteristic_uuid : String
deriving DecidableEq, Repr

/-- Validation performed by `BLEUnsubscribeMessage(**message)`. -/
def BLEUnsubscribeMessage.ofFields (f : MsgFields) : Except ValidationErr BLEUnsubscribeMessage :=
  match f.characteristic_uuid with
  | none => .error (.missingRequired "characteristic_uuid")
  | some c => .ok { characteristic_uuid := c }

/-- `BLEDiscoverMessage`: optional `service_uuid` and `adapter`; `timeout` defaults to
5 and must satisfy `ge=1, le=30`. -/
structure BLEDiscoverMessage where
  service_uuid : Option String
  timeout : Int
  adapter : Option String
deriving DecidableEq, Repr

/-- Validation performed by `BLEDiscoverMessage(**message)`. -/
def BLEDiscoverMessage.ofFields (f : MsgFields) : Except ValidationErr BLEDiscoverMessage :=
  let t := f.timeout.getD 5
  if t < 1 then .error (.outOfRange "timeout")
  else if 30 < t then .error (.outOfRange "timeout")
  else .ok { service_uuid := f.service_uuid, timeout := t, adapter := f.adapter }

/-!  Session handler (`backend/app/api/v1/ble_proxy.py`, class `BLEProxyHandler`). -/

/-- An outbound server event, i.e. the payload of one `send_json` frame. -/
inductive Event where
  | connected (device_name device_address : String) (services : List String)
  | disconnected (reason : Option String)
  | notification (characteristic_uuid : String) (data : String)
  | discovered (devices : List DeviceSummary)
  | status (connected : Bool) (device_name : Option String) (message : String)
  | error (error_msg : String)
deriving DecidableEq, Repr

/-- Session handler state: the `running` flag and the state of the bound manager.
Transport sends are modelled as succeeding (a failing send would flip `running`). -/
structure HState where
  running : Bool
  ble : BLEState
deriving DecidableEq, Repr

/-- Outcomes of every underlying call a session may make, plus the configured
`settings.ble_proxy_adapter`. -/
structure Env where
  scan : Int → Option String → Option String → ScanResult
  link : String → Option String → LinkResult
  wr : String → List Nat → Bool → Option String
  notify : String → Option String
  stop : String → Option String
  b64decode : String → Option (List Nat)
  settingsAdapter : Option String

/-- An inbound frame after transport receive: either text that is not valid JSON, or a
JSON object with its `type` key and remaining fields. -/
inductive Inbound where
  | badJson (m : String)
  | msg (ty : Option String) (fields : MsgFields)

/-- `send_status`: the `status` event, with `device_name` filled from the manager when
it is connected. -/
def BLEProxyHandler.send_status (ble : BLEState) (connected : Bool) (message : String) : Event :=
  Event.status connected
    (if BLEManager.is_connected ble then ble.device_address else none) message

/-- `handle_connect`: run the manager connect (adapter falls back to settings by
truthiness) and emit `connected` or an error event. -/
def BLEProxyHandler.handle_connect (env : Env) (s : HState) (m : BLEConnectMessage) :
    HState × List Event :=
  let adapter := if strTruthy m.adapter then m.adapter else env.settingsAdapter
  match BLEManager.connect env.scan env.link s.ble (some m.service_uuid) m.device_address adapter with
  | (ble2, .ok info) =>
    ({ s with ble := ble2 }, [Event.connected info.name info.address info.services])
  | (ble2, .error e) =>
    ({ s with ble := ble2 }, [Event.error ("Connect failed: " ++ e.msg)])

/-- `handle_disconnect`: manager disconnect, then the `disconnected` event. -/
def BLEProxyHandler.handle_disconnect (s : HState) : HState × List Event :=
  ({ s with ble := BLEManager.disconnect s.ble },
   [Event.disconnected (some "User requested disconnect")])

/-- `handle_write`: base64-decode, write, and report a status with the byte count; any
failure becomes an error event. -/
def BLEProxyHandler.handle_write (env : Env) (s : HState) (m : BLEWriteMessage) :
    HState × List Event :=
  match env.b64decode m.data with
  | none => (s, [Event.error "Write failed: invalid base64 data"])
  | some bytes =>
    match BLEManager.write env.wr s.ble m.characteristic_uuid bytes m.with_response with
    | (ble2, .ok _) =>
      ({ s with ble := ble2 },
       [BLEProxyHandler.send_status ble2 true
         ("Wrote " ++ toString bytes.length ++ " bytes to " ++ m.characteristic_uuid)])
    | (ble2, .error e) =>
      ({ s with ble := ble2 }, [Event.error ("Write failed: " ++ e.msg)])

/-- `handle_subscribe`: manager subscribe (the relay callback registration carries no
adapter state) and a status event on success. -/
def BLEProxyHandler.handle_subscribe (env : Env) (s : HState) (m : BLESubscribeMessage) :
    HState × List Event :=
  match BLEManager.subscribe env.notify s.ble m.characteristic_uuid with
  | (ble2, .ok _) =>
    ({ s with ble := ble2 },
     [BLEProxyHandler.send_status ble2 true ("Subscribed to " ++ m.characteristic_uuid)])
  | (ble2, .error e) =>
    ({ s with ble := ble2 }, [Event.error ("Subscribe failed: " ++ e.msg)])

/-- `handle_unsubscribe`: manager unsubscribe and a status event on success. -/
def BLEProxyHandler.handle_unsubscribe (env : Env) (s : HState) (m : BLEUnsubscribeMessage) :
    HState × List Event :=
  match BLEManager.unsubscribe env.stop s.ble m.characteristic_uuid with
  | (ble2, .ok _) =>
    ({ s with ble := ble2 },
     [BLEProxyHandler.send_status ble2 true ("Unsubscribed from " ++ m.characteristic_uuid)])
  | (ble2, .error e) =>
    ({ s with ble := ble2 }, [Event.error ("Unsubscribe failed: " ++ e.msg)])

/-- `handle_discover`: bounded discovery (adapter falls back to settings by
truthiness) and the `discovered` event. -/
def BLEProxyHandler.handle_discover (env : Env) (s : HState) (m : BLEDiscoverMessage) :
    HState × List Event :=
  let adapter := if strTruthy m.adapter then m.adapter else env.settingsAdapter
  match BLEManager.discover_devices env.scan m.service_uuid m.timeout adapter with
  | .ok ds => (s, [Event.discovered ds])
  | .error e => (s, [Event.error ("Discovery failed: " ++ e.msg)])

/-- `handle_message`: JSON decode, dispatch on the `type` discriminator against the
six client message types, validate the matched schema, and run the handler; an
unrecognised discriminator yields the unknown-type error event (`message.get("type")`
renders as the Python string, `None` when the key is absent). -/
def BLEProxyHandler.handle_message (env : Env) (s : HState) : Inbound → HState × List Event
  | .badJson m => (s, [Event.error ("Invalid JSON: " ++ m)])
  | .msg ty fields =>
    let tyStr := match ty with | some t => t | none => "None"
    if tyStr = "connect" then
      match BLEConnectMessage.ofFields fields with
      | .ok m => BLEProxyHandler.handle_connect env s m
      | .error e => (s, [Event.error ("Invalid message format: " ++ renderValidationErr e)])
    else if tyStr = "disconnect" then
      BLEProxyHandler.handle_disconnect s
    else if tyStr = "write" then
      match BLEWriteMessage.ofFields fields with
      | .ok m => BLEProxyHandler.handle_write env s m
      | .error e => (s, [Event.error ("Invalid message format: " ++ renderValidationErr e)])
    else if tyStr = "subscribe" then
      match BLESubscribeMessage.ofFields fields with
      | .ok m => BLEProxyHandler.handle_subscribe env s m
      | .error e => (s, [Event.error ("Invalid message format: " ++ renderValidationErr e)])
    else if tyStr = "unsubscribe" then
      match BLEUnsubscribeMessage.ofFields fields with
      | .ok m => BLEProxyHandler.handle_unsubscribe env s m
      | .error e => (s, [Event.error ("Invalid message format: " ++ renderValidationErr e)])
    else if tyStr = "discover" then
      match BLEDiscoverMessage.ofFields fields with
      | .ok m => BLEProxyHandler.handle_discover env s m
      | .error e => (s, [Event.error ("Invalid message format: " ++ renderValidationErr e)])
    else
      (s, [Event.error ("Unknown message type: " ++ tyStr)])

/-- The receive loop of `handle` over a list of delivered frames: each frame is
handled only while `running` holds. -/
def BLEProxyHandler.loop (env : Env) : HState → List Inbound → HState × List Event
  | s, [] => (s, [])
  | s, m :: ms =>
    if s.running then
      let r := BLEProxyHandler.handle_message env s m
      let rest := BLEProxyHandler.loop env r.1 ms
      (rest.1, r.2 ++ rest.2)
    else (s, [])

/-- The module-global `_ble_manager_instance` cell, with manager objects identified by
allocation number. -/
structure ProcState where
  ble_manager_instance : Option Nat
  nextId : Nat
deriving DecidableEq, Repr

/-- `get_ble_manager`: create the singleton on first call, then always return it. -/
def get_ble_manager (p : ProcState) : ProcState × Nat :=
  match p.ble_manager_instance with
  | some i => (p, i)
  | none => ({ ble_manager_instance := some p.nextId, nextId := p.nextId + 1 }, p.nextId)

/-- The manager-binding step at session start (`self.ble_manager = get_ble_manager()`
in `BLEProxyHandler.handle`): returns the bound instance. -/
def BLEProxyHandler.bind_manager (p : ProcState) : ProcState × Nat :=
  get_ble_manager p

/-!  Concrete fixtures used by the witnesses. -/

/-- A peripheral fixture. -/
def devA : Device :=
  { name := "SFP Wizard", address := "AA:BB", services := ["svc1"], chars := ["c1", "c2"] }

/-- An adapter state connected to `devA` with one tracked characteristic. -/
def bleConn : BLEState :=
  { client := some devA, device_address := some "AA:BB", subscribed_characteristics := ["c1"] }

/-- A session fixture: running, manager connected to `devA`. -/
def sessConn : HState := { running := true, ble := bleConn }

/-- A session fixture: running, manager freshly initialized. -/
def sessReady : HState := { running := true, ble := BLEManager.init }

/-- An environment fixture: scans find nothing, links fail, every other call
succeeds. -/
def envA : Env :=
  { scan := fun _ _ _ => .ok []
    link := fun _ _ => .err "link down"
    wr := fun _ _ _ => none
    notify := fun _ => none
    stop := fun _ => none
    b64decode := fun _ => none
    settingsAdapter := none }

/-- A scan oracle fixture that finds nothing. -/
def scanW : Int → Option String → Option String → ScanResult := fun _ _ _ => .ok []

/-- A link oracle fixture that connects to a device exposing `c1` and `c2`. -/
def linkW : String → Option String → LinkResult :=
  fun _ _ => .ok "SFP Wizard" ["svc1"] ["c1", "c2"]

/-- A command-sequence fixture: direct connect, subscribe, untracked unsubscribe,
disconnect. -/
def csW : List Cmd :=
  [.connect scanW linkW none (some "AA:BB") none,
   .subscribe (fun _ => none) "c1",
   .unsubscribe (fun _ => none) "c9",
   .disconnect]

/-!  Shared helper lemmas. -/

/-- With no client, the invariant pins the remaining fields. -/
theorem inv_client_none (s : BLEState) (h : s.inv = true) (hc : s.client = none) :
    s.subscribed_characteristics = [] ∧ s.device_address = none := by
  obtain ⟨c, a, subs⟩ := s
  cases hc
  simpa [BLEState.inv] using h

/-- `is_connected = false` means no stored client. -/
theorem not_connected_client_none (s : BLEState) (h : BLEManager.is_connected s = false) :
    s.client = none := by
  cases hc : s.client with
  | none => rfl
  | some d => simp [BLEManager.is_connected, hc] at h

/-- `disconnect` preserves the invariant. -/
theorem inv_disconnect (s : BLEState) (h : s.inv = true) :
    (BLEManager.disconnect s).inv = true := by
  unfold BLEManager.disconnect
  by_cases hc : BLEManager.is_connected s = true
  · simp [hc, BLEState.inv]
  · have hc2 : BLEManager.is_connected s = false := by
      cases hb : BLEManager.is_connected s
      · rfl
      · exact absurd hb hc
    obtain ⟨h1, h2⟩ := inv_client_none s h (not_connected_client_none s hc2)
    simp [hc2, BLEState.inv, h1]

/-- After the leading disconnect-if-connected phase of `connect`, the tracked set is
empty. -/
theorem pre_disconnect_subs_empty (s : BLEState) (h : s.inv = true) :
    (if BLEManager.is_connected s then BLEManager.disconnect s else s).subscribed_characteristics
      = [] := by
  by_cases hc : BLEManager.is_connected s = true
  · simp [hc, BLEManager.disconnect]
  · have hc2 : BLEManager.is_connected s = false := by
      cases hb : BLEManager.is_connected s
      · rfl
      · exact absurd hb hc
    obtain ⟨h1, _⟩ := inv_client_none s h (not_connected_client_none s hc2)
    simp [hc2, h1]

/-- After the leading disconnect-if-connected phase of `connect`, no client is
stored. -/
theorem pre_disconnect_client_none (s : BLEState) (h : BLEManager.is_connected s = false → s.client = none) :
    (if BLEManager.is_connected s then BLEManager.disconnect s else s).client = none := by
  by_cases hc : BLEManager.is_connected s = true
  · simp [hc, BLEManager.disconnect]
  · have hc2 : BLEManager.is_connected s = false := by
      cases hb : BLEManager.is_connected s
      · rfl
      · exact absurd hb hc
    simp [hc2, h hc2]

/-- After the leading disconnect-if-connected phase of `connect`, no address is
retained. -/
theorem pre_disconnect_addr_none (s : BLEState) (h : s.inv = true) :
    (if BLEManager.is_connected s then BLEManager.disconnect s else s).device_address
      = none := by
  by_cases hc : BLEManager.is_connected s = true
  · simp [hc, BLEManager.disconnect]
  · have hc2 : BLEManager.is_connected s = false := by
      cases hb : BLEManager.is_connected s
      · rfl
      · exact absurd hb hc
    obtain ⟨_, h2⟩ := inv_client_none s h (not_connected_client_none s hc2)
    simp [hc2, h2]

/-- The disconnect-if-connected phase of `connect` preserves the invariant. -/
theorem pre_disconnect_inv (s : BLEState) (h : s.inv = true) :
    (if BLEManager.is_connected s then BLEManager.disconnect s else s).inv = true := by
  by_cases hc : BLEManager.is_connected s = true
  · simpa [hc] using inv_disconnect s h
  · have hc2 : BLEManager.is_connected s = false := by
      cases hb : BLEManager.is_connected s
      · rfl
      · exact absurd hb hc
    simpa [hc2] using h

/-- `connect` preserves the invariant, whatever the oracle outcomes. -/
theorem inv_connect (scan : Int → Option String → Option String → ScanResult)
    (link : String → Option String → LinkResult) (s : BLEState)
    (su da ad : Option String) (h : s.inv = true) :
    (BLEManager.connect scan link s su da ad).1.inv = true := by
  have hsubs := pre_disconnect_subs_empty s h
  have hpre := pre_disconnect_inv s h
  simp only [BLEManager.is_connected] at hsubs hpre
  cases htgt : BLEManager.targetAddress scan su da ad with
  | error e =>
    simp only [BLEManager.connect, BLEManager.is_connected, htgt]
    exact hpre
  | ok addr =>
    simp only [BLEManager.connect, BLEManager.is_connected, htgt]
    cases hlink : link addr ad with
    | err m =>
      simp [BLEManager.establishLink, hlink, BLEState.inv, hsubs]
    | ok nm svcs chs =>
      simp [BLEManager.establishLink, hlink, BLEState.inv, hsubs]

/-- `write` never changes the adapter state. -/
theorem write_state_id (wr : String → List Nat → Bool → Option String) (s : BLEState)
    (c : String) (d : List Nat) (r : Bool) :
    (BLEManager.write wr s c d r).1 = s := by
  unfold BLEManager.write
  by_cases hc : BLEManager.is_connected s = true
  · cases hw : wr c d r <;> simp [hc, hw]
  · have hc2 : BLEManager.is_connected s = false := by
      cases hb : BLEManager.is_connected s
      · rfl
      · exact absurd hb hc
    simp [hc2]

/-- `subscribe` preserves the invariant, provided `start_notify` succeeds only on a
characteristic the connected device exposes. -/
theorem inv_subscribe (notify : String → Option String) (s : BLEState) (c : String)
    (h : s.inv = true) (hok : cmdOk s (.subscribe notify c) = true) :
    (BLEManager.subscribe notify s c).1.inv = true := by
  by_cases hc : BLEManager.is_connected s = true
  · cases hcs : s.client with
    | none => simp [BLEManager.is_connected, hcs] at hc
    | some d =>
      cases hn : notify c with
      | some m => simpa [BLEManager.subscribe, hc, hn] using h
      | none =>
        have hchars : c ∈ d.chars := by
          have := hok
          simp only [cmdOk, hcs, hn] at this
          simpa using this
        have hinv := h
        simp only [BLEState.inv, hcs, Bool.and_eq_true, List.all_eq_true,
          beq_iff_eq] at hinv
        obtain ⟨hsub, haddr⟩ := hinv
        simp only [BLEManager.subscribe, hc, Bool.not_true, Bool.false_eq_true,
          if_false, hn]
        simp only [BLEState.inv, hcs, Bool.and_eq_true, List.all_eq_true, beq_iff_eq]
        refine ⟨?_, haddr⟩
        intro x hx
        rcases List.mem_insert_iff.mp hx with hx | hx
        · subst hx
          simpa using hchars
        · exact hsub x hx
  · have hc2 : BLEManager.is_connected s = false := by
      cases hb : BLEManager.is_connected s
      · rfl
      · exact absurd hb hc
    simpa [BLEManager.subscribe, hc2] using h

/-- `unsubscribe` preserves the invariant. -/
theorem inv_unsubscribe (stop : String → Option String) (s : BLEState) (c : String)
    (h : s.inv = true) : (BLEManager.unsubscribe stop s c).1.inv = true := by
  by_cases hc : BLEManager.is_connected s = true
  · by_cases hm : s.subscribed_characteristics.contains c = true
    · have hm' : c ∈ s.subscribed_characteristics := by simpa using hm
      cases hn : stop c with
      | some m => simpa [BLEManager.unsubscribe, hc, hm, hm', hn] using h
      | none =>
        cases hcs : s.client with
        | none => simp [BLEManager.is_connected, hcs] at hc
        | some d =>
          have hinv := h
          simp only [BLEState.inv, hcs, Bool.and_eq_true, List.all_eq_true,
            beq_iff_eq] at hinv
          obtain ⟨hsub, haddr⟩ := hinv
          simp only [BLEManager.unsubscribe, hc, Bool.not_true, Bool.false_eq_true,
            if_false, hm, Bool.not_false, if_true, hn]
          simp only [BLEState.inv, hcs, Bool.and_eq_true, List.all_eq_true, beq_iff_eq]
          exact ⟨fun x hx => hsub x (List.mem_of_mem_erase hx), haddr⟩
    · have hm2 : s.subscribed_characteristics.contains c = false := by
        cases hb : s.subscribed_characteristics.contains c
        · rfl
        · exact absurd hb hm
      have hm2' : c ∉ s.subscribed_characteristics := by simpa using hm2
      simpa [BLEManager.unsubscribe, hc, hm2, hm2'] using h
  · have hc2 : BLEManager.is_connected s = false := by
      cases hb : BLEManager.is_connected s
      · rfl
      · exact absurd hb hc
    simpa [BLEManager.unsubscribe, hc2] using h

/-- One step preserves the invariant under the environment-faithfulness condition. -/
theorem inv_step (s : BLEState) (c : Cmd) (h : s.inv = true) (hc : cmdOk s c = true) :
    (step s c).inv = true := by
  cases c with
  | connect scan link su da ad => exact inv_connect scan link s su da ad h
  | disconnect => exact inv_disconnect s h
  | write wr ch d r =>
    simpa [step, write_state_id] using h
  | subscribe notify ch => exact inv_subscribe notify s ch h hc
  | unsubscribe stop ch => exact inv_unsubscribe stop s ch h
  | deviceDrop => rfl

/-- The invariant holds after any faithful command sequence. -/
theorem inv_run (cs : List Cmd) : ∀ s, s.inv = true → runOk s cs = true →
    (run s cs).inv = true := by
  induction cs with
  | nil =>
    intro s h _
    simpa [run] using h
  | cons c cs ih =>
    intro s h hok
    simp only [runOk, Bool.and_eq_true] at hok
    have hstep := inv_step s c h hok.1
    simpa [run] using ih (step s c) hstep hok.2

/-!  Claim theorems. -/

/-- C2 counterexample: in a fresh process, the manager instance bound by a first
session and the one bound by a second session started afterwards are the same
instance, refuting per-session distinctness of the Device Adapter. -/
theorem singleton_manager_counterexample :
    (BLEProxyHandler.bind_manager (BLEProxyHandler.bind_manager ⟨none, 0⟩).1).2
      = (BLEProxyHandler.bind_manager ⟨none, 0⟩).2 := by
  rfl

/-- C2 (amended): `get_ble_manager` is a process-wide singleton — every session binds
the same manager instance as the session started after it, and the module-global cell
holds exactly that instance from then on, so all sessions of one process share one
underlying BLE link. -/
theorem singleton_manager_shared (p : ProcState) :
    (BLEProxyHandler.bind_manager (BLEProxyHandler.bind_manager p).1).2
      = (BLEProxyHandler.bind_manager p).2
  ∧ (BLEProxyHandler.bind_manager p).1.ble_manager_instance
      = some (BLEProxyHandler.bind_manager p).2 := by
  obtain ⟨inst, n⟩ := p
  cases inst <;> simp [BLEProxyHandler.bind_manager, get_ble_manager]

/-- C3 counterexample: a connect frame carrying only a device address (no
service_uuid) is rejected by schema validation instead of decoding into a Connect
command. -/
theorem connect_schema_counterexample :
    BLEConnectMessage.ofFields { device_address := some "AA:BB:CC:DD:EE:FF" }
      = .error (.missingRequired "service_uuid") := by
  rfl

/-- C3 (amended): decoding a connect frame succeeds exactly when `service_uuid` is
present, since the schema declares it required; with `service_uuid` absent the frame
fails schema validation even when `device_address` is present, and the session handler
then emits an invalid-format error event. -/
theorem connect_schema_requires_service_uuid (env : Env) (s : HState) (f : MsgFields) :
    (f.service_uuid = none →
      BLEConnectMessage.ofFields f = .error (.missingRequired "service_uuid"))
  ∧ (∀ u, f.service_uuid = some u →
      BLEConnectMessage.ofFields f
        = .ok { service_uuid := u, device_address := f.device_address, adapter := f.adapter })
  ∧ (f.service_uuid = none →
      BLEProxyHandler.handle_message env s (.msg (some "connect") f)
        = (s, [Event.error ("Invalid message format: "
            ++ renderValidationErr (.missingRequired "service_uuid"))])) := by
  refine ⟨?_, ?_, ?_⟩
  · intro hu
    simp [BLEConnectMessage.ofFields, hu]
  · intro u hu
    simp [BLEConnectMessage.ofFields, hu]
  · intro hu
    simp [BLEProxyHandler.handle_message, BLEConnectMessage.ofFields, hu]

/-- Witness for C3 (amended): both branches exercised at concrete frames. -/
theorem connect_schema_requires_service_uuid_witness :
    (BLEConnectMessage.ofFields { device_address := some "AA:BB" }
      = .error (.missingRequired "service_uuid"))
  ∧ (BLEConnectMessage.ofFields { service_uuid := some "svc" }
      = .ok { service_uuid := "svc", device_address := none, adapter := none }) :=
  ⟨(connect_schema_requires_service_uuid envA sessReady
      { device_address := some "AA:BB" }).1 rfl,
   (connect_schema_requires_service_uuid envA sessReady
      { service_uuid := some "svc" }).2.1 "svc" rfl⟩

/-- C9: the `disconnect` operation of the Device Adapter is idempotent — on a reachable state that is
not connected it is a state no-op and raises nothing (it is a total function), and two
consecutive disconnects end in the same state as one. -/
theorem disconnect_idempotent (s : BLEState) (h : s.inv = true) :
    (BLEManager.is_connected s = false → BLEManager.disconnect s = s)
  ∧ BLEManager.disconnect (BLEManager.disconnect s) = BLEManager.disconnect s := by
  constructor
  · intro hc
    have hclient := not_connected_client_none s hc
    obtain ⟨h1, h2⟩ := inv_client_none s h hclient
    obtain ⟨c, a, subs⟩ := s
    simp_all [BLEManager.disconnect, BLEManager.is_connected]
  · obtain ⟨c, a, subs⟩ := s
    cases c <;> simp [BLEManager.disconnect, BLEManager.is_connected]

/-- Witness for C9 at a concrete disconnected state. -/
theorem disconnect_idempotent_witness :
    BLEManager.init.inv = true
  ∧ BLEManager.is_connected BLEManager.init = false
  ∧ BLEManager.disconnect BLEManager.init = BLEManager.init :=
  ⟨rfl, rfl, (disconnect_idempotent BLEManager.init rfl).1 rfl⟩

/-- C10: subscribe and unsubscribe are atomic with respect to the tracked set — on a
connected state a failing `start_notify`/`stop_notify` propagates with the set exactly
as before, and the set is changed only by the respective success case. -/
theorem subscribe_unsubscribe_atomic (s : BLEState) (char m : String)
    (notify stop : String → Option String) (h : BLEManager.is_connected s = true) :
    (notify char = some m →
      BLEManager.subscribe notify s char = (s, .error (.bleakError m)))
  ∧ (notify char = none →
      BLEManager.subscribe notify s char
        = ({ s with subscribed_characteristics :=
              s.subscribed_characteristics.insert char }, .ok ()))
  ∧ (s.subscribed_characteristics.contains char = true → stop char = some m →
      BLEManager.unsubscribe stop s char = (s, .error (.bleakError m)))
  ∧ (s.subscribed_characteristics.contains char = true → stop char = none →
      BLEManager.unsubscribe stop s char
        = ({ s with subscribed_characteristics :=
              s.subscribed_characteristics.erase char }, .ok ())) := by
  refine ⟨?_, ?_, ?_, ?_⟩
  · intro h1
    simp [BLEManager.subscribe, h, h1]
  · intro h1
    simp [BLEManager.subscribe, h, h1]
  · intro h1 h2
    have h1m : char ∈ s.subscribed_characteristics := by simpa using h1
    simp [BLEManager.unsubscribe, h, h1, h2, h1m]
  · intro h1 h2
    have h1m : char ∈ s.subscribed_characteristics := by simpa using h1
    simp [BLEManager.unsubscribe, h, h1, h2, h1m]

/-- Witness for C10 at a concrete connected state. -/
theorem subscribe_unsubscribe_atomic_witness :
    BLEManager.is_connected bleConn = true
  ∧ BLEManager.subscribe (fun _ => some "boom") bleConn "c2"
      = (bleConn, .error (.bleakError "boom"))
  ∧ BLEManager.unsubscribe (fun _ => some "boom") bleConn "c1"
      = (bleConn, .error (.bleakError "boom")) :=
  ⟨rfl,
   (subscribe_unsubscribe_atomic bleConn "c2" "boom"
      (fun _ => some "boom") (fun _ => some "boom") rfl).1 rfl,
   (subscribe_unsubscribe_atomic bleConn "c1" "boom"
      (fun _ => some "boom") (fun _ => some "boom") rfl).2.2.1 rfl rfl⟩

/-- C4: `connect` is all-or-nothing — whenever it fails, for any lower-level reason,
the adapter afterwards reports not connected and retains neither a client nor a device
address. -/
theorem connect_all_or_nothing (scan : Int → Option String → Option String → ScanResult)
    (link : String → Option String → LinkResult) (s : BLEState)
    (su da ad : Option String) (e : BLEError) (hInv : s.inv = true)
    (hfail : (BLEManager.connect scan link s su da ad).2 = .error e) :
    BLEManager.is_connected (BLEManager.connect scan link s su da ad).1 = false
  ∧ (BLEManager.connect scan link s su da ad).1.client = none
  ∧ (BLEManager.connect scan link s su da ad).1.device_address = none := by
  have hcl := pre_disconnect_client_none s (fun hc => not_connected_client_none s hc)
  have had := pre_disconnect_addr_none s hInv
  simp only [BLEManager.is_connected] at hcl had
  cases htgt : BLEManager.targetAddress scan su da ad with
  | error e2 =>
    simp only [BLEManager.connect, BLEManager.is_connected, htgt] at hfail ⊢
    exact ⟨by simp [hcl], hcl, had⟩
  | ok addr =>
    simp only [BLEManager.connect, BLEManager.is_connected, htgt] at hfail ⊢
    cases hlink : link addr ad with
    | err m =>
      simp [BLEManager.establishLink, hlink]
    | ok nm svcs chs =>
      simp [BLEManager.establishLink, hlink] at hfail

/-- Witness for C4: a failing discovery-driven connect from the fresh state retains
nothing. -/
theorem connect_all_or_nothing_witness :
    BLEManager.init.inv = true
  ∧ (BLEManager.connect (fun _ _ _ => .ok []) (fun _ _ => .err "x")
      BLEManager.init (some "svc") none none).2
        = .error (.valueError "No devices found with service svc")
  ∧ (BLEManager.connect (fun _ _ _ => .ok []) (fun _ _ => .err "x")
      BLEManager.init (some "svc") none none).1.client = none :=
  ⟨rfl, rfl,
   (connect_all_or_nothing (fun _ _ _ => .ok []) (fun _ _ => .err "x")
      BLEManager.init (some "svc") none none
      (.valueError "No devices found with service svc") rfl rfl).2.1⟩

/-- C6: on every disconnect, local or device-initiated, no intermediate adapter state
has the connection already invalidated while the tracked set is still non-empty — the
set is cleared strictly before `client` and `device_address` are dropped — and each
trace ends in the final state of the corresponding operation. -/
theorem disconnect_clears_subs_first (s : BLEState) (h : s.inv = true) :
    (∀ t ∈ BLEManager.disconnectTrace s, t.client = none →
        t.subscribed_characteristics = [])
  ∧ (∀ t ∈ BLEManager.on_disconnectTrace s, t.client = none →
        t.subscribed_characteristics = [])
  ∧ (BLEManager.disconnectTrace s).getLast? = some (BLEManager.disconnect s)
  ∧ (BLEManager.on_disconnectTrace s).getLast? = some (BLEManager.on_disconnect s) := by
  by_cases hc : BLEManager.is_connected s = true
  · have hcl : ∃ d, s.client = some d := by
      cases hcs : s.client with
      | none => simp [BLEManager.is_connected, hcs] at hc
      | some d => exact ⟨d, rfl⟩
    obtain ⟨d, hd⟩ := hcl
    refine ⟨?_, ?_, ?_, ?_⟩
    · intro t ht hnone
      simp only [BLEManager.disconnectTrace, hc, if_true, List.mem_cons,
        List.mem_singleton, List.not_mem_nil, or_false] at ht
      rcases ht with h1 | h1 | h1 | h1 <;> subst h1 <;> simp_all
    · intro t ht hnone
      simp only [BLEManager.on_disconnectTrace, List.mem_cons, List.mem_singleton,
        List.not_mem_nil, or_false] at ht
      rcases ht with h1 | h1 | h1 | h1 <;> subst h1 <;> simp_all
    · simp [BLEManager.disconnectTrace, BLEManager.disconnect, hc]
    · simp [BLEManager.on_disconnectTrace, BLEManager.on_disconnect]
  · have hc2 : BLEManager.is_connected s = false := by
      cases hb : BLEManager.is_connected s
      · rfl
      · exact absurd hb hc
    obtain ⟨h1, h2⟩ := inv_client_none s h (not_connected_client_none s hc2)
    refine ⟨?_, ?_, ?_, ?_⟩
    · intro t ht hnone
      simp only [BLEManager.disconnectTrace, hc2, Bool.false_eq_true, if_false,
        List.mem_cons, List.mem_singleton, List.not_mem_nil, or_false] at ht
      rcases ht with h3 | h3 | h3 <;> subst h3 <;> simp_all
    · intro t ht hnone
      simp only [BLEManager.on_disconnectTrace, List.mem_cons, List.mem_singleton,
        List.not_mem_nil, or_false] at ht
      rcases ht with h3 | h3 | h3 | h3 <;> subst h3 <;> simp_all
    · simp [BLEManager.disconnectTrace, BLEManager.disconnect, hc2]
    · simp [BLEManager.on_disconnectTrace, BLEManager.on_disconnect]

/-- Witness for C6 at a concrete connected state. -/
theorem disconnect_clears_subs_first_witness :
    bleConn.inv = true
  ∧ (∀ t ∈ BLEManager.disconnectTrace bleConn, t.client = none →
        t.subscribed_characteristics = []) :=
  ⟨rfl, (disconnect_clears_subs_first bleConn rfl).1⟩

/-- C8: unsubscribing a characteristic that is not currently tracked, on a connected
adapter, is a state no-op that returns normally (only a warning is logged), and the
session handler responds with a Status event, not an Error event. -/
theorem unsubscribe_untracked_is_status (env : Env) (s : HState) (char : String)
    (hc : BLEManager.is_connected s.ble = true)
    (hn : s.ble.subscribed_characteristics.contains char = false) :
    (∀ stop, BLEManager.unsubscribe stop s.ble char = (s.ble, .ok ()))
  ∧ BLEProxyHandler.handle_message env s
      (.msg (some "unsubscribe") { characteristic_uuid := some char })
      = (s, [Event.status true s.ble.device_address ("Unsubscribed from " ++ char)]) := by
  have hn2 : char ∉ s.ble.subscribed_characteristics := by simpa using hn
  have hmain : ∀ stop, BLEManager.unsubscribe stop s.ble char = (s.ble, .ok ()) := by
    intro stop
    simp [BLEManager.unsubscribe, hc, hn, hn2]
  refine ⟨hmain, ?_⟩
  simp [BLEProxyHandler.handle_message, BLEUnsubscribeMessage.ofFields,
    BLEProxyHandler.handle_unsubscribe, hmain, BLEProxyHandler.send_status, hc]

/-- Witness for C8 at a concrete connected state and untracked characteristic. -/
theorem unsubscribe_untracked_is_status_witness :
    BLEManager.is_connected sessConn.ble = true
  ∧ sessConn.ble.subscribed_characteristics.contains "c9" = false
  ∧ BLEProxyHandler.handle_message envA sessConn
      (.msg (some "unsubscribe") { characteristic_uuid := some "c9" })
      = (sessConn, [Event.status true (some "AA:BB") "Unsubscribed from c9"]) :=
  ⟨rfl, rfl, (unsubscribe_untracked_is_status envA sessConn "c9" rfl rfl).2⟩

/-- C5: for every connect invocation — a (non-empty) device address is used directly,
with discovery playing no part; with both target fields absent connect fails
demanding one of them; with only a service uuid, a discovery at the 10-second policy
timeout drives the outcome (scans at other timeouts are irrelevant): an empty result
fails with the no-devices-found error, and otherwise connect proceeds against the
address of the first match. -/
theorem connect_target_resolution
    (scan scan2 : Int → Option String → Option String → ScanResult)
    (link : String → Option String → LinkResult) (s : BLEState)
    (su ad : Option String) (u a : String) (d : ScannedDevice) (ds : List ScannedDevice) :
    (a.isEmpty = false →
      BLEManager.connect scan link s su (some a) ad
        = BLEManager.connect scan2 link s su (some a) ad
    ∧ BLEManager.connect scan link s su (some a) ad
        = BLEManager.connect scan link s none (some a) ad)
  ∧ ((BLEManager.connect scan link s none none ad).2
      = .error (.valueError "Either device_address or service_uuid is required to connect"))
  ∧ (u.isEmpty = false → scan 10 (some u) ad = .ok [] →
      (BLEManager.connect scan link s (some u) none ad).2
        = .error (.valueError ("No devices found with service " ++ u)))
  ∧ (u.isEmpty = false → scan 10 (some u) ad = .ok (d :: ds) →
      d.address.isEmpty = false →
      BLEManager.connect scan link s (some u) none ad
        = BLEManager.connect scan link s none (some d.address) ad)
  ∧ ((∀ fl, scan 10 fl ad = scan2 10 fl ad) →
      BLEManager.connect scan link s su none ad
        = BLEManager.connect scan2 link s su none ad) := by
  refine ⟨?_, ?_, ?_, ?_, ?_⟩
  · intro ha
    constructor <;> simp [BLEManager.connect, BLEManager.targetAddress, ha]
  · simp [BLEManager.connect, BLEManager.targetAddress, BLEManager.resolveAddress]
  · intro hu hscan
    simp [BLEManager.connect, BLEManager.targetAddress, BLEManager.resolveAddress,
      BLEManager.discover_devices, strTruthy, hu, hscan]
  · intro hu hscan haddr
    simp [BLEManager.connect, BLEManager.targetAddress, BLEManager.resolveAddress,
      BLEManager.discover_devices, strTruthy, hu, hscan, haddr, summarize]
  · intro hsame
    cases su with
    | none =>
      simp [BLEManager.connect, BLEManager.targetAddress, BLEManager.resolveAddress]
    | some v =>
      by_cases hv : v.isEmpty = true
      · simp [BLEManager.connect, BLEManager.targetAddress, BLEManager.resolveAddress, hv]
      · have hv2 : v.isEmpty = false := by
          cases hb : v.isEmpty
          · rfl
          · exact absurd hb hv
        simp [BLEManager.connect, BLEManager.targetAddress, BLEManager.resolveAddress,
          BLEManager.discover_devices, strTruthy, hv2, hsame none, hsame (some v)]

/-- Witness for C5: address precedence and the empty-discovery failure at concrete
inputs. -/
theorem connect_target_resolution_witness :
    ((BLEManager.connect (fun _ _ _ => .ok []) (fun _ _ => .err "x")
        BLEManager.init none none none).2
      = .error (.valueError "Either device_address or service_uuid is required to connect"))
  ∧ ((BLEManager.connect (fun _ _ _ => .ok []) (fun _ _ => .err "x")
        BLEManager.init (some "svc") none none).2
      = .error (.valueError ("No devices found with service " ++ "svc"))) :=
  ⟨(connect_target_resolution (fun _ _ _ => .ok []) (fun _ _ _ => .ok [])
      (fun _ _ => .err "x") BLEManager.init none none "svc" "AA"
      ⟨none, "AA", none⟩ []).2.1,
   (connect_target_resolution (fun _ _ _ => .ok []) (fun _ _ _ => .ok [])
      (fun _ _ => .err "x") BLEManager.init none none "svc" "AA"
      ⟨none, "AA", none⟩ []).2.2.1 rfl rfl⟩

/-- C7: a frame whose type discriminator is outside the closed client command set
yields an Error event containing the literal unknown type string, the session state
(including the running flag) is untouched, and a subsequent valid discover command is
still processed normally. -/
theorem unknown_type_session_survives (env : Env) (s : HState) (t : String)
    (f : MsgFields) (ds : List ScannedDevice)
    (hrun : s.running = true)
    (ht : t ∉ (["connect", "disconnect", "write", "subscribe", "unsubscribe",
        "discover"] : List String))
    (hscan : env.scan 5 none env.settingsAdapter = .ok ds) :
    BLEProxyHandler.loop env s [.msg (some t) f, .msg (some "discover") {}]
      = (s, [Event.error ("Unknown message type: " ++ t),
             Event.discovered (ds.map summarize)])
  ∧ (∃ pre post, "Unknown message type: " ++ t = pre ++ t ++ post) := by
  have hne : ¬(t = "connect") ∧ ¬(t = "disconnect") ∧ ¬(t = "write")
      ∧ ¬(t = "subscribe") ∧ ¬(t = "unsubscribe") ∧ ¬(t = "discover") := by
    simpa [not_or] using ht
  obtain ⟨h1, h2, h3, h4, h5, h6⟩ := hne
  constructor
  · simp [BLEProxyHandler.loop, hrun, BLEProxyHandler.handle_message,
      h1, h2, h3, h4, h5, h6, BLEDiscoverMessage.ofFields,
      BLEProxyHandler.handle_discover, BLEManager.discover_devices, strTruthy, hscan]
  · exact ⟨"Unknown message type: ", "", by simp⟩

/-- Witness for C7: the literal type "bogus" followed by a discover command. -/
theorem unknown_type_session_survives_witness :
    ("bogus" ∉ (["connect", "disconnect", "write", "subscribe", "unsubscribe",
        "discover"] : List String))
  ∧ BLEProxyHandler.loop envA sessReady [.msg (some "bogus") {}, .msg (some "discover") {}]
      = (sessReady, [Event.error ("Unknown message type: " ++ "bogus"),
            Event.discovered []]) :=
  ⟨by decide,
   (unknown_type_session_survives envA sessReady "bogus" {} [] rfl (by decide) rfl).1⟩

/-- C1: for every faithfully-processed command sequence, the tracked subscription set
is a subset of the characteristic set of the connected device and is empty whenever no
device is connected; subscribe on a disconnected adapter raises the not-connected
error with the state unchanged; and both `disconnect` and the device-initiated
disconnect callback leave the subscription set empty. -/
theorem subscribed_subset_invariant (cs : List Cmd)
    (h : runOk BLEManager.init cs = true) :
    (run BLEManager.init cs).inv = true
  ∧ ((run BLEManager.init cs).client = none →
      (run BLEManager.init cs).subscribed_characteristics = [])
  ∧ (∀ d, (run BLEManager.init cs).client = some d →
      ∀ ch ∈ (run BLEManager.init cs).subscribed_characteristics, ch ∈ d.chars)
  ∧ (BLEManager.is_connected (run BLEManager.init cs) = false →
      ∀ notify ch, BLEManager.subscribe notify (run BLEManager.init cs) ch
        = (run BLEManager.init cs, .error (.runtimeError "Not connected to any device")))
  ∧ (BLEManager.disconnect (run BLEManager.init cs)).subscribed_characteristics = []
  ∧ (BLEManager.on_disconnect (run BLEManager.init cs)).subscribed_characteristics
      = [] := by
  have hinv := inv_run cs BLEManager.init rfl h
  refine ⟨hinv, ?_, ?_, ?_, ?_, rfl⟩
  · intro hnone
    exact (inv_client_none (run BLEManager.init cs) hinv hnone).1
  · intro d hd ch hch
    have hx := hinv
    simp only [BLEState.inv, hd, Bool.and_eq_true, List.all_eq_true] at hx
    have := hx.1 ch hch
    simpa using this
  · intro hnc notify ch
    simp [BLEManager.subscribe, hnc]
  · by_cases hc : BLEManager.is_connected (run BLEManager.init cs) = true
    · simp [BLEManager.disconnect, hc]
    · have hc2 : BLEManager.is_connected (run BLEManager.init cs) = false := by
        cases hb : BLEManager.is_connected (run BLEManager.init cs)
        · rfl
        · exact absurd hb hc
      have hsubs := (inv_client_none (run BLEManager.init cs) hinv
        (not_connected_client_none (run BLEManager.init cs) hc2)).1
      simp [BLEManager.disconnect, hc2, hsubs]

/-- Witness for C1 on a concrete faithful command sequence. -/
theorem subscribed_subset_invariant_witness :
    runOk BLEManager.init csW = true
  ∧ (run BLEManager.init csW).inv = true
  ∧ (BLEManager.disconnect (run BLEManager.init csW)).subscribed_characteristics
      = [] :=
  ⟨rfl, (subscribed_subset_invariant csW rfl).1,
   (subscribed_subset_invariant csW rfl).2.2.2.2.1⟩

end SFPLiberate

